import Mathlib

/-!
Verification of the Lantern Hacking minigame engine of the roleHaven server
(managers/lanternHack.js).  The JavaScript source is shallowly embedded:
strings become `List Char`, JS numbers carrying signal arithmetic become `ℚ`
(the stored, post-ceil station values are integers, `ℤ`), and the
callback-style flows become pure functions that also report which database
side effects were attempted.
-/

namespace RoleHaven

/-- `signalThreshold` constant (lanternHack.js line 28). -/
def signalThreshold : ℚ := 50

/-- `signalDefault` constant, the baseline signal value (line 29). -/
def signalDefault : ℚ := 100

/-- `changePercentage` constant (line 30); the source literal `0.2` is read
as the rational 1/5. -/
def changePercentage : ℚ := 1 / 5

/-- `signalMaxChange` constant, the maximum single-step change (line 31). -/
def signalMaxChange : ℚ := 10

/-- The baseline as an integer, for the stored station values. -/
def signalDefaultInt : ℤ := 100

/-! ## JS string helpers used by the guess matcher -/

/-- JavaScript `String.prototype.indexOf` for a single character: the index
of the first occurrence, `-1` when absent. -/
def jsIndexOf : List Char → Char → Int
  | [], _ => -1
  | c :: cs, x =>
      if c = x then 0
      else
        let r := jsIndexOf cs x
        if r = -1 then -1 else r + 1

/-- JavaScript `String.prototype.toLowerCase` on the embedded strings. -/
def jsToLower (s : List Char) : List Char := s.map Char.toLower

/-- The match count computed on the mismatch path of `manipulateStation`
(lines 385–386):
`sentPassword.filter(char => correctUser.password.indexOf(char) === sentPassword.indexOf(char)).length`
where `sentPassword = Array.from(password.toLowerCase())`. -/
def matchesAmount (correctPassword guess : List Char) : Nat :=
  let sentPassword := jsToLower guess
  (sentPassword.filter
    (fun char => decide (jsIndexOf correctPassword char = jsIndexOf sentPassword char))).length

/-- The match count the specification describes: a strict positional
comparison of the case-folded guess with the correct password — the number
of positions `i` with `guess[i] = correctPassword[i]`.  (Stated from the
spec's words, to be compared with `matchesAmount`.) -/
def positionalMatches (correctPassword guess : List Char) : Nat :=
  (((jsToLower guess).zip correctPassword).filter (fun p => decide (p.1 = p.2))).length

/-! ## Signal Engine (`updateSignalValue`, lines 126–195) -/

/-- The step magnitude chosen by `updateSignalValue` (lines 183–190): a
proportional step `(signalThreshold - difference) * changePercentage`,
overridden with `signalMaxChange` when boosting below the baseline or
cutting above it. -/
def signalChange (signalValue : ℚ) (boostingSignal : Bool) : ℚ :=
  let difference := |signalValue - signalDefault|
  let proportional := (signalThreshold - difference) * changePercentage
  if boostingSignal && decide (signalValue < signalDefault) then signalMaxChange
  else if !boostingSignal && decide (signalValue > signalDefault) then signalMaxChange
  else proportional

/-- The raw (pre-ceil, pre-clamp) value passed to `setNewValue` (line 192):
`signalValue + (boostingSignal ? signalChange : -Math.abs(signalChange))`. -/
def appliedSignal (signalValue : ℚ) (boostingSignal : Bool) : ℚ :=
  signalValue +
    (if boostingSignal then signalChange signalValue boostingSignal
     else -|signalChange signalValue boostingSignal|)

/-- `setNewValue`'s arithmetic (lines 143–152): round the incoming value up
(`Math.ceil`), then clamp to `[minValue, maxValue]` where
`minValue = signalDefault - signalThreshold = 50` and
`maxValue = signalDefault + signalThreshold = 150`. -/
def setNewValue (signalValue : ℚ) : ℤ :=
  let minValue : ℤ := 50
  let maxValue : ℤ := 150
  let ceilSignalValue : ℤ := ⌈signalValue⌉
  if ceilSignalValue > maxValue then maxValue
  else if ceilSignalValue < minValue then minValue
  else ceilSignalValue

/-- The station value persisted by a Signal Engine application: the raw
stepped value of line 192 sent through `setNewValue`. -/
def updateSignalValueResult (signalValue : ℚ) (boostingSignal : Bool) : ℤ :=
  setNewValue (appliedSignal signalValue boostingSignal)

/-- The raw stepped value as the specification words it (§4.4): the same
`difference` and proportional/overridden `step`, but applying the *signed*
step — `+step` if boosting, `−step` if cutting.  (Stated from the spec's
words, to be compared with `appliedSignal`.) -/
def specAppliedSignal (signalValue : ℚ) (boosting : Bool) : ℚ :=
  let difference := |signalValue - signalDefault|
  let step₀ := (signalThreshold - difference) * changePercentage
  let step :=
    if (boosting && decide (signalValue < signalDefault))
        || (!boosting && decide (signalValue > signalDefault)) then signalMaxChange
    else step₀
  signalValue + (if boosting then step else -step)

/-! ## Data model -/

/-- A game user entry of a hack session, as built by `createLanternHack`
(lines 249–264): password, type, user name, hint, and the `isCorrect` mark
placed on the first selected entry. -/
structure Candidate where
  userName : List Char
  password : List Char
  passwordType : List Char
  hintIndex : Nat
  hintChar : Char
  isCorrect : Bool
deriving DecidableEq, Repr

/-- A hack session as stored by the session store (`lanternHack`). -/
structure LanternHack where
  owner : List Char
  stationId : Nat
  gameUsers : List Candidate
  triesLeft : Int
deriving DecidableEq, Repr

/-- A station record of the station store. -/
structure Station where
  stationId : Nat
  isActive : Bool
  signalValue : Int
deriving DecidableEq, Repr

/-! ## Decay tick (`resetStations`, lines 66–118) -/

/-- One unit toward the baseline, as computed in lines 83–87 (only ever
applied to a station whose value differs from the baseline). -/
def oneStepToward (signalValue : Int) : Int :=
  if signalValue > signalDefaultInt then signalValue - 1 else signalValue + 1

/-- One decay tick over the loaded station list (the `stations.forEach` of
lines 77–115), with every database write succeeding: returns the list of
`(stationId, newSignalValue)` pairs persisted through
`dbLanternHack.updateSignalValue`, and the number of
`setTimeout(resetStations, …)` calls made — the reschedule sits inside each
adjusted station's update callback (line 111), so one is counted per
station whose value was adjusted. -/
def resetStationsTick (stations : List Station) : List (Nat × Int) × Nat :=
  stations.foldl
    (fun acc station =>
      let signalValue := station.signalValue
      if signalValue ≠ signalDefaultInt then
        (acc.1 ++ [(station.stationId, oneStepToward signalValue)], acc.2 + 1)
      else acc)
    ([], 0)

/-! ## Guess evaluation (`manipulateStation`, lines 292–401)

The flow after validation, authorization and the session fetch have
succeeded.  The database calls it makes are not under the embedded source
(`db/connectors/lanternhack.js` is absent), so their outcomes are oracle
parameters (`engineOk`, `lowerOk`, `removeOk`) and the decrement performed
by `lowerHackTries` is modelled from the spec: "decrement `triesLeft` by
one (atomically against the persisted session)". -/

/-- The errors the guess flow reports to its caller.  `external` stands for
`errorCreator.External({ name: 'wrecking' })` (line 329); `storage` stands
for a database error passed through unchanged. -/
inductive HackError where
  | external
  | storage
deriving DecidableEq, Repr

/-- The client-facing responses of `manipulateStation`: the success payload
`{ success: true, boostingSignal }` (line 343), the failure payloads
`{ success: false, triesLeft }` (lines 373–378) and
`{ success: false, triesLeft, matches: { amount } }` (lines 388–394), and
`crash` for the JavaScript `TypeError` thrown when no game user is marked
correct (line 321's `find` returning `undefined`). -/
inductive GuessResponse where
  | crash
  | err (e : HackError)
  | success (boostingSignal : Bool)
  | failure (triesLeft : Int) (matchesField : Option Nat)
deriving DecidableEq, Repr

/-- Which database mutations the flow attempted: `engineInvoked` is the
`updateSignalValue` call of line 324 (the success branch), `removeAttempted`
a `removeLanternHack` call, `lowerAttempted` the `lowerHackTries` call. -/
structure GuessEffects where
  engineInvoked : Bool
  removeAttempted : Bool
  lowerAttempted : Bool
deriving DecidableEq, Repr

/-- The guess evaluation of `manipulateStation` (lines 320–396): find the
correct game user; on an exact case-folded password match with
`triesLeft > 0`, run the Signal Engine, then remove the session and answer
`success`; otherwise lower the tries, destroying the session when they are
exhausted, and answer `failure` — with the `matches` count only on the
branch that leaves tries remaining. -/
def manipulateStationCore (lanternHack : LanternHack) (password : List Char)
    (boostingSignal engineOk lowerOk removeOk : Bool) :
    GuessResponse × GuessEffects :=
  match lanternHack.gameUsers.find? (fun gameUser => gameUser.isCorrect) with
  | none => (.crash, ⟨false, false, false⟩)
  | some correctUser =>
    if correctUser.password = jsToLower password ∧ lanternHack.triesLeft > 0 then
      if engineOk then
        if removeOk then (.success boostingSignal, ⟨true, true, false⟩)
        else (.err .storage, ⟨true, true, false⟩)
      else (.err .external, ⟨true, false, false⟩)
    else
      if lowerOk then
        let loweredTries := lanternHack.triesLeft - 1
        if loweredTries ≤ 0 then
          if removeOk then (.failure loweredTries none, ⟨false, true, true⟩)
          else (.err .storage, ⟨false, true, true⟩)
        else
          (.failure loweredTries (some (matchesAmount correctUser.password password)),
            ⟨false, false, true⟩)
      else (.err .storage, ⟨false, false, false⟩)

/-! ## Challenge payload (`createHackData`, lines 202–226) -/

/-- The challenge payload sent to the caller (lines 214–223); these six
fields are the whole payload. -/
structure HackData where
  passwords : List (List Char)
  triesLeft : Int
  userName : List Char
  passwordType : List Char
  hintIndex : Nat
  hintChar : Char
  stationId : Nat
deriving DecidableEq, Repr

/-- `createHackData` (lines 202–226) given the decoy pool already shuffled:
`textTools.shuffleArray` lives in `utils/textTools.js`, which is not under
the embedded source, so it is modelled from the spec as producing an
arbitrary permutation of the pool, passed in as `shuffledFakePasswords`.
The payload takes the first 13 shuffled decoys, appends every game user's
password, and copies the name, type and hint of the correct game user;
`none` models the `TypeError` thrown when no game user is marked correct. -/
def createHackData (shuffledFakePasswords : List (List Char))
    (lanternHack : LanternHack) : Option HackData :=
  match lanternHack.gameUsers.find? (fun gameUser => gameUser.isCorrect) with
  | none => none
  | some correctUser =>
    some
      { passwords :=
          shuffledFakePasswords.take 13 ++
            lanternHack.gameUsers.map (fun gameUser => gameUser.password)
        triesLeft := lanternHack.triesLeft
        userName := correctUser.userName
        passwordType := correctUser.passwordType
        hintIndex := correctUser.hintIndex
        hintChar := correctUser.hintChar
        stationId := lanternHack.stationId }

/-! ## Callback trace of `setNewValue` (lines 154–178) -/

/-- The messages `setNewValue`'s persistence callback hands to the
operation's `callback`. -/
inductive UpdateMsg where
  | err
  | successTrue
  | response (statusCode : Nat)
deriving DecidableEq, Repr

/-- The sequence of `callback` invocations `setNewValue` performs after its
`dbLanternHack.updateSignalValue` write returns (lines 157–177): on a write
error, one error invocation; on success, `{ success: true }` immediately
(line 165), and — when the telemetry post answers with `statusCode` — a
second invocation `{ response }` (line 175). -/
def setNewValueCallbacks (dbWriteOk : Bool) (telemetryAnswer : Option Nat) :
    List UpdateMsg :=
  if dbWriteOk then
    UpdateMsg.successTrue ::
      (match telemetryAnswer with
       | some statusCode => [UpdateMsg.response statusCode]
       | none => [])
  else [UpdateMsg.err]

example : matchesAmount ['a','b','c','e','e'] ['a','b','x','y','z'] = 2 := by decide
example : positionalMatches ['a','b','c','e','e'] ['a','b','x','y','z'] = 2 := by decide
example : matchesAmount ['a','b'] ['a','a'] = 2 := by decide
example : positionalMatches ['a','b'] ['a','a'] = 1 := by decide
example : appliedSignal 40 false = 38 := by
  norm_num [appliedSignal, signalChange, signalDefault, signalThreshold, changePercentage,
    signalMaxChange]
example : specAppliedSignal 40 false = 42 := by
  norm_num [specAppliedSignal, signalDefault, signalThreshold, changePercentage, signalMaxChange]
example : updateSignalValueResult 100 true = 110 := by
  norm_num [updateSignalValueResult, appliedSignal, signalChange, setNewValue, signalDefault,
    signalThreshold, changePercentage, signalMaxChange]

/-! ## Shared demo inputs and helper lemmas -/

/-- A demo correct candidate: password `"ab"`, hint `('a', 0)`, marked
correct. -/
def demoCandidate : Candidate := ⟨['u'], ['a', 'b'], ['A'], 0, 'a', true⟩

/-- A demo session with two tries left. -/
def demoHack : LanternHack := ⟨['u'], 1, [demoCandidate], 2⟩

/-- A demo session with one try left. -/
def demoHackOneTry : LanternHack := ⟨['u'], 1, [demoCandidate], 1⟩

/-- A demo session with no tries left. -/
def demoHackNoTries : LanternHack := ⟨['u'], 1, [demoCandidate], 0⟩

/-- Counting with a predicate equals counting the positions at which the
predicate holds of the element there. -/
theorem countP_eq_countP_range {α : Type} (l : List α) (p : α → Bool) (d : α) :
    l.countP p = (List.range l.length).countP (fun i => p (l.getD i d)) := by
  induction l with
  | nil => rfl
  | cons a t ih =>
      simp only [List.length_cons, List.range_succ_eq_map, List.countP_cons, List.countP_map,
        List.getD_cons_zero, ih]
      simp only [Function.comp_def, Nat.succ_eq_add_one, List.getD_cons_succ]

/-- Unfolding the fold of `resetStationsTick` over an arbitrary
accumulator. -/
theorem resetStationsTick_fold (stations : List Station) :
    ∀ acc : List (Nat × Int) × Nat,
      stations.foldl
        (fun acc station =>
          let signalValue := station.signalValue
          if signalValue ≠ signalDefaultInt then
            (acc.1 ++ [(station.stationId, oneStepToward signalValue)], acc.2 + 1)
          else acc)
        acc =
      (acc.1 ++
        (stations.filter fun s => decide (s.signalValue ≠ signalDefaultInt)).map
          (fun s => (s.stationId, oneStepToward s.signalValue)),
       acc.2 +
        (stations.filter fun s => decide (s.signalValue ≠ signalDefaultInt)).length) := by
  induction stations with
  | nil => intro acc; simp
  | cons s t ih =>
      intro acc
      rw [List.foldl_cons]
      by_cases h : s.signalValue ≠ signalDefaultInt
      · rw [if_pos h, ih, List.filter_cons_of_pos (by simpa using h), List.map_cons,
          List.length_cons]
        refine Prod.ext ?_ ?_
        · simp
        · simp only []
          omega
      · rw [if_neg h, ih, List.filter_cons_of_neg (by simpa using h)]

/-- The persisted updates and the reschedule count of one decay tick, in
closed form. -/
theorem resetStationsTick_eq (stations : List Station) :
    resetStationsTick stations =
      ((stations.filter fun s => decide (s.signalValue ≠ signalDefaultInt)).map
        (fun s => (s.stationId, oneStepToward s.signalValue)),
       (stations.filter fun s => decide (s.signalValue ≠ signalDefaultInt)).length) := by
  unfold resetStationsTick
  rw [resetStationsTick_fold]
  simp

/-! ## Claim theorems -/

/-- C4: for every prior `signalValue` and either boosting direction, the
value persisted by a Signal Engine application lies within
`[baseline − threshold, baseline + threshold] = [50, 150]`, and it is
exactly the stepped value rounded up (`Math.ceil`) and then clamped to that
interval. -/
theorem signal_engine_result_clamped (signalValue : ℚ) (boostingSignal : Bool) :
    50 ≤ updateSignalValueResult signalValue boostingSignal ∧
    updateSignalValueResult signalValue boostingSignal ≤ 150 ∧
    updateSignalValueResult signalValue boostingSignal =
      max 50 (min 150 ⌈appliedSignal signalValue boostingSignal⌉) := by
  simp only [updateSignalValueResult, setNewValue]
  split
  · constructor
    · omega
    · constructor
      · omega
      · omega
  · split <;> omega

/-- C5 counterexample: at a station value of 40 with `boostingSignal =
false` (cutting), the code applies `−|step|` (line 192) where the claim's
signed step `−step` would differ: the proportional step there is
`(50 − 60) · (1/5) = −2`, so the code moves 40 to 38 while the claim's
formula moves it to 42. -/
theorem signal_step_sign_counterexample :
    appliedSignal 40 false ≠ specAppliedSignal 40 false ∧
    appliedSignal 40 false = 38 ∧ specAppliedSignal 40 false = 42 := by
  norm_num [appliedSignal, specAppliedSignal, signalChange, signalDefault, signalThreshold,
    changePercentage, signalMaxChange]

/-- C5 as amended: for every station state whose `signalValue` satisfies
the Station invariant `baseline − threshold ≤ signalValue ≤
baseline + threshold`, the code's raw stepped value (difference,
proportional step, `maxStepChange` override, then `+step` boosting /
`−|step|` cutting) coincides with the spec's signed-step formula
(`+step` boosting / `−step` cutting); outside that band a cutting request
with a negative proportional step applies `−|step|`, not `−step`. -/
theorem signal_step_matches_spec_in_band (signalValue : ℚ) (boostingSignal : Bool)
    (hlo : signalDefault - signalThreshold ≤ signalValue)
    (hhi : signalValue ≤ signalDefault + signalThreshold) :
    appliedSignal signalValue boostingSignal = specAppliedSignal signalValue boostingSignal := by
  have hchange : 0 ≤ signalChange signalValue boostingSignal := by
    simp only [signalChange]
    split
    · norm_num [signalMaxChange]
    · split
      · norm_num [signalMaxChange]
      · have habs : |signalValue - signalDefault| ≤ signalThreshold := by
          rw [abs_le]
          constructor <;> linarith
        have : 0 ≤ signalThreshold - |signalValue - signalDefault| := by linarith
        have hpc : 0 ≤ changePercentage := by norm_num [changePercentage]
        exact mul_nonneg this hpc
  have hstep : specAppliedSignal signalValue boostingSignal =
      signalValue +
        (if boostingSignal then signalChange signalValue boostingSignal
         else -(signalChange signalValue boostingSignal)) := by
    cases boostingSignal <;> simp [specAppliedSignal, signalChange]
  rw [hstep, appliedSignal]
  cases boostingSignal with
  | true => rfl
  | false =>
      rw [if_neg Bool.false_ne_true, if_neg Bool.false_ne_true, abs_of_nonneg hchange]

/-- Witness for C5's amended theorem at the in-band state
`signalValue = 120`, cutting. -/
theorem signal_step_matches_spec_in_band_witness :
    (signalDefault - signalThreshold ≤ (120 : ℚ) ∧
      (120 : ℚ) ≤ signalDefault + signalThreshold) ∧
    appliedSignal 120 false = specAppliedSignal 120 false :=
  ⟨⟨by norm_num [signalDefault, signalThreshold], by norm_num [signalDefault, signalThreshold]⟩,
    signal_step_matches_spec_in_band 120 false
      (by norm_num [signalDefault, signalThreshold])
      (by norm_num [signalDefault, signalThreshold])⟩

/-- C1 counterexample: with correct password `"ab"`, a session with two
tries and the guess `"aa"`, the mismatch path reports
`matches.amount = 2` (both `'a'`s pass the `indexOf` test of line 386)
while the strict positional count of the claim is 1. -/
theorem matches_positional_counterexample :
    (manipulateStationCore demoHack ['a', 'a'] true true true true).1 =
      GuessResponse.failure 1 (some 2) ∧
    positionalMatches ['a', 'b'] ['a', 'a'] = 1 ∧
    matchesAmount ['a', 'b'] ['a', 'a'] = 2 := by
  decide

/-- C1 as amended: the reported `matches.amount` is not a positional
comparison; it equals the number of positions `i` of the case-folded guess
whose character passes the first-occurrence test of line 386 — the first
occurrence of that character in the correct password sits at the same index
as its first occurrence in the guess itself (so a character absent from the
correct password never counts, and a repeated character counts at each of
its occurrences once its first occurrences align). -/
theorem matchesAmount_first_occurrence (correctPassword guess : List Char) :
    matchesAmount correctPassword guess =
      (List.range (jsToLower guess).length).countP
        (fun i =>
          decide (jsIndexOf correctPassword ((jsToLower guess).getD i ' ') =
            jsIndexOf (jsToLower guess) ((jsToLower guess).getD i ' '))) := by
  simp only [matchesAmount, ← List.countP_eq_length_filter]
  exact countP_eq_countP_range _ _ ' '

/-- C10: whenever the persistence write inside `updateSignalValue`
succeeds and the telemetry post later answers, the single operation's
callback is invoked more than once — first with `{ success: true }`
(line 165), then with the telemetry response (line 175) — so a caller such
as `manipulateStation`'s success path observes two completions. -/
theorem double_callback_on_success (statusCode : Nat) :
    setNewValueCallbacks true (some statusCode) =
      [UpdateMsg.successTrue, UpdateMsg.response statusCode] ∧
    1 < (setNewValueCallbacks true (some statusCode)).length := by
  constructor
  · rfl
  · simp [setNewValueCallbacks]

/-- C2: with `triesLeft ≤ 0` no guess — the exact correct password
included — ever succeeds or reaches the Signal Engine, and conversely the
success branch (engine invocation, and a `success` response) is entered
only when the case-folded password matches the correct candidate's and
`triesLeft > 0`. -/
theorem correct_guess_needs_tries (lanternHack : LanternHack) (password : List Char)
    (boostingSignal engineOk lowerOk removeOk : Bool) :
    (lanternHack.triesLeft ≤ 0 →
      (∀ b,
        (manipulateStationCore lanternHack password boostingSignal engineOk lowerOk removeOk).1 ≠
          GuessResponse.success b) ∧
      (manipulateStationCore lanternHack password boostingSignal engineOk lowerOk
          removeOk).2.engineInvoked = false) ∧
    (((manipulateStationCore lanternHack password boostingSignal engineOk lowerOk
          removeOk).2.engineInvoked = true ∨
      (∃ b,
        (manipulateStationCore lanternHack password boostingSignal engineOk lowerOk removeOk).1 =
          GuessResponse.success b)) →
      0 < lanternHack.triesLeft ∧
      ∃ correctUser,
        lanternHack.gameUsers.find? (fun gameUser => gameUser.isCorrect) = some correctUser ∧
        correctUser.password = jsToLower password) := by
  unfold manipulateStationCore
  cases hfind : lanternHack.gameUsers.find? (fun gameUser => gameUser.isCorrect) with
  | none => simp
  | some correctUser =>
      dsimp only
      by_cases hmatch : correctUser.password = jsToLower password ∧ lanternHack.triesLeft > 0
      · rw [if_pos hmatch]
        refine ⟨fun htries => absurd hmatch.2 (by omega), fun _ => ⟨hmatch.2, correctUser, rfl, hmatch.1⟩⟩
      · rw [if_neg hmatch]
        cases lowerOk with
        | false => simp
        | true =>
            by_cases hzero : lanternHack.triesLeft - 1 ≤ 0
            · simp only [if_pos hzero]
              cases removeOk <;> simp
            · simp only [if_neg hzero]
              simp

/-- Witness for C2 at a session with `triesLeft = 0` and the exact correct
password submitted. -/
theorem correct_guess_needs_tries_witness :
    (∀ b,
      (manipulateStationCore demoHackNoTries ['a', 'b'] true true true true).1 ≠
        GuessResponse.success b) ∧
    (manipulateStationCore demoHackNoTries ['a', 'b'] true true true true).2.engineInvoked =
      false :=
  (correct_guess_needs_tries demoHackNoTries ['a', 'b'] true true true true).1 (by decide)

/-- C3: on the success path (case-folded match, `triesLeft > 0`) a Signal
Engine failure yields the `External` error of line 329; `removeLanternHack`
is never called (the session is preserved) and `lowerHackTries` is never
called (no try is consumed). -/
theorem engine_failure_preserves_session (lanternHack : LanternHack) (password : List Char)
    (boostingSignal lowerOk removeOk : Bool) (correctUser : Candidate)
    (hfind : lanternHack.gameUsers.find? (fun gameUser => gameUser.isCorrect) = some correctUser)
    (hpassword : correctUser.password = jsToLower password)
    (htries : 0 < lanternHack.triesLeft) :
    manipulateStationCore lanternHack password boostingSignal false lowerOk removeOk =
      (GuessResponse.err HackError.external, ⟨true, false, false⟩) := by
  unfold manipulateStationCore
  rw [hfind]
  dsimp only
  rw [if_pos ⟨hpassword, htries⟩, if_neg Bool.false_ne_true]

/-- Witness for C3: the correct guess against a two-try session with the
engine failing. -/
theorem engine_failure_preserves_session_witness :
    manipulateStationCore demoHack ['a', 'b'] true false true true =
      (GuessResponse.err HackError.external, ⟨true, false, false⟩) :=
  engine_failure_preserves_session demoHack ['a', 'b'] true true true demoCandidate
    (by decide) (by decide) (by decide)

/-- C8 counterexample: a wrong guess against a one-try session exhausts the
tries, and the response of lines 373–378 carries **no** matches count
(`matchesField = none`), refuting "every failed guess outcome returns a
matches count". -/
theorem exhaustion_without_matches_counterexample :
    ¬ ∀ t m,
      (manipulateStationCore demoHackOneTry ['z', 'z'] true true true true).1 =
          GuessResponse.failure t m →
        m.isSome = true := by
  intro h
  have h0 := h 0 none (by decide)
  simp at h0

/-- C8 as amended: on the mismatch path (no case-folded match with tries
remaining), when the lowering and removal writes succeed, the attempt that
exhausts the last try answers `success: false` with the lowered
`triesLeft` and **no** matches count, while a plain mismatch that leaves
tries answers `success: false` with the lowered `triesLeft` and the
matches count. -/
theorem failed_guess_responses (lanternHack : LanternHack) (password : List Char)
    (boostingSignal engineOk : Bool) (correctUser : Candidate)
    (hfind : lanternHack.gameUsers.find? (fun gameUser => gameUser.isCorrect) = some correctUser)
    (hfail : ¬(correctUser.password = jsToLower password ∧ lanternHack.triesLeft > 0)) :
    (lanternHack.triesLeft - 1 ≤ 0 →
      (manipulateStationCore lanternHack password boostingSignal engineOk true true).1 =
        GuessResponse.failure (lanternHack.triesLeft - 1) none) ∧
    (0 < lanternHack.triesLeft - 1 →
      (manipulateStationCore lanternHack password boostingSignal engineOk true true).1 =
        GuessResponse.failure (lanternHack.triesLeft - 1)
          (some (matchesAmount correctUser.password password))) := by
  unfold manipulateStationCore
  rw [hfind]
  dsimp only
  rw [if_neg hfail]
  constructor
  · intro hzero
    simp only [if_pos trivial]
    rw [if_pos hzero]
  · intro hpos
    simp only [if_pos trivial]
    rw [if_neg (by omega)]

/-- Witness for C8's amended theorem: the exhausting wrong guess against a
one-try session answers without a matches count. -/
theorem failed_guess_responses_witness :
    (manipulateStationCore demoHackOneTry ['z', 'z'] true true true true).1 =
      GuessResponse.failure (demoHackOneTry.triesLeft - 1) none :=
  (failed_guess_responses demoHackOneTry ['z', 'z'] true true demoCandidate
      (by decide) (by decide)).1 (by decide)

/-- C6: one decay tick persists, for exactly the stations whose value
differs from the baseline, the value moved one unit toward the baseline —
decrement when above, increment when below, never crossing the baseline —
and writes nothing for stations already at the baseline. -/
theorem decay_moves_one_toward_baseline (stations : List Station) :
    (resetStationsTick stations).1 =
      (stations.filter fun s => decide (s.signalValue ≠ signalDefaultInt)).map
        (fun s => (s.stationId, oneStepToward s.signalValue)) ∧
    ∀ s ∈ stations, s.signalValue ≠ signalDefaultInt →
      (signalDefaultInt < s.signalValue →
        oneStepToward s.signalValue = s.signalValue - 1 ∧
        signalDefaultInt ≤ oneStepToward s.signalValue) ∧
      (s.signalValue < signalDefaultInt →
        oneStepToward s.signalValue = s.signalValue + 1 ∧
        oneStepToward s.signalValue ≤ signalDefaultInt) := by
  constructor
  · rw [resetStationsTick_eq]
  · intro s _ hne
    unfold oneStepToward
    constructor
    · intro habove
      rw [if_pos habove]
      omega
    · intro hbelow
      rw [if_neg (by omega)]
      omega

/-- Witness for C6 on the stations `{id 1, signal 107}`, `{id 2, signal
100}`, `{id 3, signal 93}`: the tick persists `(1, 106)` and `(3, 94)`
only, and the one-step facts hold at the station with signal 107. -/
theorem decay_moves_one_toward_baseline_witness :
    (resetStationsTick [⟨1, true, 107⟩, ⟨2, true, 100⟩, ⟨3, true, 93⟩]).1 =
      [(1, 106), (3, 94)] ∧
    oneStepToward 107 = 106 ∧ signalDefaultInt ≤ oneStepToward 107 := by
  have h :=
    decay_moves_one_toward_baseline [⟨1, true, 107⟩, ⟨2, true, 100⟩, ⟨3, true, 93⟩]
  refine ⟨by rw [h.1]; decide, ?_, ?_⟩
  · exact ((h.2 ⟨1, true, 107⟩ (by simp) (by decide)).1 (by decide)).1
  · exact ((h.2 ⟨1, true, 107⟩ (by simp) (by decide)).1 (by decide)).2

/-- C7 (evaluating the code at the failing inputs): the number of
`setTimeout(resetStations, …)` reschedules a tick performs equals the
number of stations whose value was adjusted — it is 0 (the decay chain
halts) when every station sits at the baseline, and 2 when two stations
need adjustment — not "exactly one regardless". -/
theorem decay_reschedules_per_adjusted_station :
    (∀ stations : List Station,
      (resetStationsTick stations).2 =
        (stations.filter fun s => decide (s.signalValue ≠ signalDefaultInt)).length) ∧
    (resetStationsTick [⟨1, true, 100⟩, ⟨2, true, 100⟩]).2 = 0 ∧
    (resetStationsTick [⟨1, true, 120⟩, ⟨2, true, 80⟩]).2 = 2 := by
  refine ⟨fun stations => ?_, by decide, by decide⟩
  rw [resetStationsTick_eq]

/-- C9: the challenge payload of `createHackData` is exactly the six
fields of lines 214–223 — no candidate's `isCorrect` flag is among them;
its `passwords` list is the (shuffled) decoy pool capped at 13 followed by
every real candidate's password, so it contains all real passwords, holds
at most 13 decoys, and nothing outside pool ∪ real passwords; and the
exposed `userName`, `passwordType` and `passwordHint` are the correct
candidate's. -/
theorem hack_data_payload (fakePasswords shuffled : List (List Char))
    (lanternHack : LanternHack) (hackData : HackData)
    (hperm : shuffled.Perm fakePasswords)
    (hbuild : createHackData shuffled lanternHack = some hackData) :
    (∃ correctUser,
      lanternHack.gameUsers.find? (fun gameUser => gameUser.isCorrect) = some correctUser ∧
      correctUser.isCorrect = true ∧
      hackData =
        { passwords :=
            shuffled.take 13 ++ lanternHack.gameUsers.map (fun gameUser => gameUser.password)
          triesLeft := lanternHack.triesLeft
          userName := correctUser.userName
          passwordType := correctUser.passwordType
          hintIndex := correctUser.hintIndex
          hintChar := correctUser.hintChar
          stationId := lanternHack.stationId }) ∧
    (∀ gameUser ∈ lanternHack.gameUsers, gameUser.password ∈ hackData.passwords) ∧
    hackData.passwords.length ≤ 13 + lanternHack.gameUsers.length ∧
    (∀ p ∈ hackData.passwords,
      p ∈ fakePasswords ∨ p ∈ lanternHack.gameUsers.map (fun gameUser => gameUser.password)) := by
  unfold createHackData at hbuild
  cases hfind : lanternHack.gameUsers.find? (fun gameUser => gameUser.isCorrect) with
  | none => rw [hfind] at hbuild; exact absurd hbuild (by simp)
  | some correctUser =>
      rw [hfind] at hbuild
      dsimp only at hbuild
      have hdata := Option.some.inj hbuild
      subst hdata
      refine ⟨⟨correctUser, rfl, ?_, rfl⟩, ?_, ?_, ?_⟩
      · simpa using List.find?_some hfind
      · intro gameUser hmem
        exact List.mem_append_right _ (List.mem_map_of_mem _ hmem)
      · simp only [List.length_append, List.length_map]
        have : (shuffled.take 13).length ≤ 13 := by
          rw [List.length_take]
          exact min_le_left _ _
        omega
      · intro p hp
        rcases List.mem_append.mp hp with hleft | hright
        · exact Or.inl (hperm.mem_iff.mp (List.take_subset 13 shuffled hleft))
        · exact Or.inr hright

/-- Witness for C9 at a two-password decoy pool (shuffled by swapping) and
the two-try demo session. -/
theorem hack_data_payload_witness :
    (HackData.passwords
        ⟨[['f', '2'], ['f', '1'], ['a', 'b']], 2, ['u'], ['A'], 0, 'a', 1⟩).length ≤
      13 + demoHack.gameUsers.length :=
  (hack_data_payload [['f', '1'], ['f', '2']] [['f', '2'], ['f', '1']] demoHack
      ⟨[['f', '2'], ['f', '1'], ['a', 'b']], 2, ['u'], ['A'], 0, 'a', 1⟩
      (by decide) (by decide)).2.2.1

end RoleHaven
